import Mathlib

/-!
Verification of the session-store core of the shiksha-setu client.

The definitions below are a shallow embedding of `src/contexts/ChatContext.tsx`
(the Session Store of the spec) and of the URL-batch handling in the upload
panel component. Each React `useState` cell becomes a field of `ChatState`;
each `toast` call is recorded by appending the toasted text to the `toasts`
log; every `fetch` round trip is abstracted by a `FetchResult` parameter that
says whether the response was ok, not ok, or a thrown network error. Each
Store operation becomes a state-transition function whose branches mirror the
source's control flow (early returns, try/catch, finally).
-/

namespace ShikshaSetu

/-- One chat message, as in the `Message` interface of ChatContext.tsx. -/
structure Message where
  id : String
  role : String
  content : String
  timestamp : Nat
  deriving DecidableEq, Repr

/-- One chat session, as in the `Chat` interface of ChatContext.tsx. -/
structure Chat where
  id : String
  title : String
  messages : List Message
  createdAt : Nat
  updatedAt : Nat
  deriving DecidableEq, Repr

/-- Outcome of one `fetch` round trip: `ok` with the parsed JSON body,
`notOk` for a non-success HTTP response, `networkError` for a thrown error. -/
inductive FetchResult (α : Type) where
  | ok (value : α)
  | notOk
  | networkError
  deriving DecidableEq, Repr

/-- The ChatProvider state: the `chats` list (the session mapping, display
order), the `currentChat` reference, the three busy flags `isLoading`
(the spec's `responding`), `uploadingFiles` and `processingFiles`, plus a log
of toast messages emitted so far. -/
structure ChatState where
  chats : List Chat
  currentChat : Option Chat
  isLoading : Bool
  uploadingFiles : Bool
  processingFiles : Bool
  toasts : List String
  deriving DecidableEq, Repr

/-- The provider's initial state: empty list, no current chat, flags false. -/
def initialChatState : ChatState :=
  { chats := [], currentChat := none, isLoading := false,
    uploadingFiles := false, processingFiles := false, toasts := [] }

/-- The identity-change effect in ChatProvider's useEffect: when the user
becomes absent, the chat list and the current chat are reset. -/
def logoutEffect (s : ChatState) : ChatState :=
  { s with chats := [], currentChat := none }

/-- The raw `setCurrentChat` setter, exposed directly on the context value. -/
def setCurrentChat (chat : Chat) (s : ChatState) : ChatState :=
  { s with currentChat := some chat }

/-- The session identifiers currently in the mapping. -/
def keys (s : ChatState) : List String := s.chats.map Chat.id

/-- Whether the active-session invariant holds: `currentChat` is unset or its
identifier is a key of the mapping. -/
def activeInMapping (s : ChatState) : Bool :=
  match s.currentChat with
  | none => true
  | some cc => decide (cc.id ∈ s.chats.map Chat.id)

/-- `createChat`: guard on user and token, POST /api/chats, on ok prepend the
returned chat and make it current, otherwise toast an error. -/
def createChat (user tokenPresent : Bool) (resp : FetchResult Chat)
    (s : ChatState) : ChatState :=
  if !user then { s with toasts := s.toasts ++ ["Please log in to create a chat"] }
  else if !tokenPresent then s
  else match resp with
  | .ok newChat => { s with chats := newChat :: s.chats, currentChat := some newChat }
  | .notOk => { s with toasts := s.toasts ++ ["Failed to create new chat"] }
  | .networkError => { s with toasts := s.toasts ++ ["Failed to create new chat"] }

/-- The provisional user message built in `sendMessage`, with the locally
generated identifier `temp-` followed by the current timestamp. -/
def mkProvisional (content : String) (now : Nat) : Message :=
  { id := "temp-" ++ toString now, role := "user", content := content, timestamp := now }

/-- The optimistic copy of the current chat with the provisional user message
appended and `updatedAt` refreshed. -/
def appendProvisional (cc : Chat) (content : String) (now : Nat) : Chat :=
  { cc with messages := cc.messages ++ [mkProvisional content now], updatedAt := now }

/-- The state while the message request is in flight: `isLoading` set and the
current chat replaced by the optimistic copy (the chats list is untouched). -/
def sendMessageInFlight (cc : Chat) (content : String) (now : Nat)
    (s : ChatState) : ChatState :=
  { s with isLoading := true, currentChat := some (appendProvisional cc content now) }

/-- Reconciliation used on a successful response carrying a full chat
snapshot: the current chat becomes the snapshot and the list entry whose id
matches the snapshot's id is replaced by it. -/
def reconcile (updatedChat : Chat) (s : ChatState) : ChatState :=
  { s with currentChat := some updatedChat,
           chats := s.chats.map fun c => if c.id = updatedChat.id then updatedChat else c }

/-- The response handling of `sendMessage` (including the catch and finally
blocks): on ok reconcile the returned snapshot, otherwise toast an error; in
every case `isLoading` is cleared. -/
def sendMessageFinish (resp : FetchResult Chat) (s : ChatState) : ChatState :=
  match resp with
  | .ok updatedChat => { reconcile updatedChat s with isLoading := false }
  | .notOk =>
      { s with isLoading := false,
               toasts := s.toasts ++ ["Failed to send message. Please try again."] }
  | .networkError =>
      { s with isLoading := false,
               toasts := s.toasts ++ ["Failed to send message. Please try again."] }

/-- `sendMessage`: guard on user/currentChat (toast) and token (silent), then
the optimistic append, the POST, and the response handling. -/
def sendMessage (user tokenPresent : Bool) (content : String) (now : Nat)
    (resp : FetchResult Chat) (s : ChatState) : ChatState :=
  match s.currentChat with
  | none => { s with toasts := s.toasts ++ ["Please create a new chat first"] }
  | some cc =>
    if !user then { s with toasts := s.toasts ++ ["Please create a new chat first"] }
    else if !tokenPresent then s
    else sendMessageFinish resp (sendMessageInFlight cc content now s)

/-- `deleteChat`: guard on token, DELETE the chat, on ok filter it out of the
list and, if it was current, make the first remaining chat current (or none). -/
def deleteChat (tokenPresent : Bool) (chatId : String) (resp : FetchResult Unit)
    (s : ChatState) : ChatState :=
  if !tokenPresent then s
  else match resp with
  | .ok _ =>
    let remainingChats := s.chats.filter fun c => c.id != chatId
    { s with chats := remainingChats,
             currentChat := match s.currentChat with
               | some cc => if cc.id = chatId then remainingChats.head? else some cc
               | none => none }
  | .notOk => { s with toasts := s.toasts ++ ["Failed to delete chat"] }
  | .networkError => { s with toasts := s.toasts ++ ["Failed to delete chat"] }

/-- `renameChat`: guard on token, PATCH the chat, on ok replace the list entry
with the returned chat and refresh `currentChat` if it was the renamed one;
on failure toast an error and change nothing else. The new title travels only
in the request body, so it does not appear in the state transition. -/
def renameChat (tokenPresent : Bool) (chatId : String) (newTitle : String)
    (resp : FetchResult Chat) (s : ChatState) : ChatState :=
  if !tokenPresent then s
  else match resp with
  | .ok updatedChat =>
    { s with chats := s.chats.map fun c => if c.id = chatId then updatedChat else c,
             currentChat := match s.currentChat with
               | some cc => if cc.id = chatId then some updatedChat else some cc
               | none => none }
  | .notOk => { s with toasts := s.toasts ++ ["Failed to rename chat"] }
  | .networkError => { s with toasts := s.toasts ++ ["Failed to rename chat"] }

/-- The `setUploadingFiles(true)` step of `uploadDocuments`. -/
def uploadDocumentsBusy (s : ChatState) : ChatState :=
  { s with uploadingFiles := true }

/-- The `setProcessingFiles(true)` step shared by `uploadDocuments` (after the
upload is accepted) and `addWebsites` (at the start of its try block). -/
def startProcessing (s : ChatState) : ChatState :=
  { s with processingFiles := true }

/-- The finally block of `uploadDocuments`: both flags cleared. -/
def clearIngestFlags (s : ChatState) : ChatState :=
  { s with uploadingFiles := false, processingFiles := false }

/-- The follow-up GET of the chat after ingestion: on ok reconcile the
returned snapshot, otherwise leave the state as is (no error is raised). -/
def refetchReconcile (chatResp : FetchResult Chat) (s : ChatState) : ChatState :=
  match chatResp with
  | .ok updatedChat => reconcile updatedChat s
  | .notOk => s
  | .networkError => s

/-- `uploadDocuments`: guard on user/currentChat (toast) and token (silent);
set `uploadingFiles`; POST the files; on acceptance set `processingFiles`,
wait, refetch and reconcile the chat, toast success; on failure toast an
error; finally clear both ingestion flags. -/
def uploadDocuments (user tokenPresent : Bool) (files : List String)
    (uploadResp : FetchResult Unit) (chatResp : FetchResult Chat)
    (s : ChatState) : ChatState :=
  match s.currentChat with
  | none => { s with toasts := s.toasts ++ ["Please create a new chat first"] }
  | some _ =>
    if !user then { s with toasts := s.toasts ++ ["Please create a new chat first"] }
    else if !tokenPresent then s
    else
      let s1 := uploadDocumentsBusy s
      match uploadResp with
      | .ok _ =>
        let s2 := startProcessing s1
        let s3 := refetchReconcile chatResp s2
        let doneMsg := toString files.length ++ " document(s) processed and ready for querying"
        clearIngestFlags { s3 with toasts := s3.toasts ++ [doneMsg] }
      | .notOk =>
        clearIngestFlags
          { s1 with toasts := s1.toasts ++ ["Failed to upload documents. Please try again."] }
      | .networkError =>
        clearIngestFlags
          { s1 with toasts := s1.toasts ++ ["Failed to upload documents. Please try again."] }

/-- `addWebsites`: guard on user/currentChat (toast) and token (silent); set
`processingFiles`; POST the urls; on acceptance wait, refetch and reconcile
the chat, toast success; on failure toast an error; finally clear
`processingFiles`. -/
def addWebsites (user tokenPresent : Bool) (urls : List String)
    (websitesResp : FetchResult Unit) (chatResp : FetchResult Chat)
    (s : ChatState) : ChatState :=
  match s.currentChat with
  | none => { s with toasts := s.toasts ++ ["Please create a new chat first"] }
  | some _ =>
    if !user then { s with toasts := s.toasts ++ ["Please create a new chat first"] }
    else if !tokenPresent then s
    else
      let s1 := startProcessing s
      match websitesResp with
      | .ok _ =>
        let s2 := refetchReconcile chatResp s1
        let doneMsg := toString urls.length ++ " website(s) processed and ready for querying"
        { s2 with toasts := s2.toasts ++ [doneMsg], processingFiles := false }
      | .notOk =>
        { s1 with toasts := s1.toasts ++ ["Failed to process websites. Please try again."]
                  processingFiles := false }
      | .networkError =>
        { s1 with toasts := s1.toasts ++ ["Failed to process websites. Please try again."]
                  processingFiles := false }

/-- Whitespace trimming on the underlying character list. This models both
the component's `.trim()` emptiness check and the leading/trailing strip the
URL constructor performs before parsing (`String.trim` itself is avoided so
that concrete runs reduce inside the kernel). -/
def trimWs (s : String) : String :=
  ⟨((s.data.dropWhile Char.isWhitespace).reverse.dropWhile Char.isWhitespace).reverse⟩

/-- Helper for `urlParses`: scans the characters after the first one, looking
for the `:` that terminates a URL scheme; every character before it must be a
letter, a digit, `+`, `-` or `.`. -/
def isSchemeTail : List Char → Bool
  | [] => false
  | c :: rest =>
    if c = ':' then true
    else (c.isAlphanum || c = '+' || c = '-' || c = '.') && isSchemeTail rest

/-- Models acceptance by the WHATWG URL constructor invoked as
`new URL(currentUrl)` in the upload panel: after stripping leading and
trailing whitespace, an absolute URL must begin with a scheme — an ASCII
letter followed by letters, digits, `+`, `-` or `.` — terminated by `:`. -/
def urlParses (s : String) : Bool :=
  match (trimWs s).data with
  | [] => false
  | c :: rest => c.isAlpha && isSchemeTail rest

/-- The upload panel's local component state: the selected files (by name),
the pending URL batch, the text currently in the URL input, and the toasts
the panel has emitted. -/
structure UploadPanelState where
  files : List String
  urls : List String
  currentUrl : String
  toasts : List String
  deriving DecidableEq, Repr

/-- `handleAddUrl` in the upload panel: ignore blank input; try `new URL` on
the raw input and toast an error if it does not parse; enforce the ten-URL
limit; otherwise append the raw input to the batch and clear the field. -/
def handleAddUrl (p : UploadPanelState) : UploadPanelState :=
  if trimWs p.currentUrl = "" then p
  else if urlParses p.currentUrl then
    if p.urls.length ≥ 10 then { p with toasts := p.toasts ++ ["Maximum 10 URLs allowed"] }
    else { p with urls := p.urls ++ [p.currentUrl], currentUrl := "" }
  else { p with toasts := p.toasts ++ ["Please enter a valid URL"] }

/-- `handleRemoveUrl` in the upload panel: drop the batch entry at `index`. -/
def handleRemoveUrl (index : Nat) (p : UploadPanelState) : UploadPanelState :=
  { p with urls := (p.urls.enum.filter fun x => x.1 != index).map fun x => x.2 }

/-- The website request `handleUpload` issues: it calls `addWebsites` exactly
when a chat is active and the batch is nonempty, and the request carries the
batch `urls` unchanged. -/
def websitesRequestOf (chatActive : Bool) (p : UploadPanelState) : Option (List String) :=
  if chatActive && !p.urls.isEmpty then some p.urls else none

/-- One successful session-mutating operation, carrying the server's
response where one exists: the chat returned by a create, the chat returned
by a rename, or the identifier passed to a delete. -/
inductive SessionOp where
  | create (newChat : Chat)
  | rename (chatId : String) (updatedChat : Chat)
  | remove (chatId : String)
  deriving DecidableEq, Repr

/-- Run one successful operation through the corresponding Store function. -/
def applyOp (s : ChatState) : SessionOp → ChatState
  | .create c => createChat true true (.ok c) s
  | .rename i u => renameChat true i u.title (.ok u) s
  | .remove i => deleteChat true i (.ok ()) s

/-- Run a sequence of successful operations, oldest first. -/
def runOps (s : ChatState) (ops : List SessionOp) : ChatState :=
  ops.foldl applyOp s

/-- The identifiers of the sessions returned by the creates of a sequence. -/
def createdIds : List SessionOp → List String
  | [] => []
  | .create c :: rest => c.id :: createdIds rest
  | .rename _ _ :: rest => createdIds rest
  | .remove _ :: rest => createdIds rest

/-- The identifiers passed to the removes of a sequence. -/
def removedIds : List SessionOp → List String
  | [] => []
  | .remove i :: rest => i :: removedIds rest
  | .create _ :: rest => removedIds rest
  | .rename _ _ :: rest => removedIds rest

/-- Well-formedness of an operation sequence relative to the identifiers
removed so far: every rename response echoes the renamed session's
identifier, and no create reuses an identifier that was removed earlier
(server-assigned identifiers are fresh). -/
def wfOps : List SessionOp → List String → Bool
  | [], _ => true
  | .create c :: rest, rem => !(rem.contains c.id) && wfOps rest rem
  | .rename i u :: rest, rem => (u.id == i) && wfOps rest rem
  | .remove i :: rest, rem => wfOps rest (i :: rem)

/-- Sample chat used in concrete runs. -/
def chatA : Chat :=
  { id := "a", title := "Chat A", messages := [], createdAt := 1, updatedAt := 1 }

/-- Second sample chat used in concrete runs. -/
def chatB : Chat :=
  { id := "b", title := "Chat B", messages := [], createdAt := 2, updatedAt := 2 }

/-- The chat the server returns for a successful rename of `chatB`. -/
def chatBRenamed : Chat :=
  { chatB with title := "Chat B renamed", updatedAt := 3 }

/-- A server snapshot of session `a` holding the user's message and the
assistant's reply, with server-assigned message identifiers. -/
def staleChat : Chat :=
  { id := "a", title := "Chat A",
    messages := [{ id := "m1", role := "user", content := "hi", timestamp := 3 },
                 { id := "m2", role := "assistant", content := "hello", timestamp := 4 }],
    createdAt := 1, updatedAt := 4 }

/-- A state with one chat, that chat active, all flags clear. -/
def baseState : ChatState :=
  { chats := [chatA], currentChat := some chatA, isLoading := false,
    uploadingFiles := false, processingFiles := false, toasts := [] }

/-- Like `baseState` but with `isLoading` (the responding flag) already true. -/
def c1State : ChatState :=
  { chats := [chatA], currentChat := some chatA, isLoading := true,
    uploadingFiles := false, processingFiles := false, toasts := [] }

/-- A concrete operation sequence: create two sessions, rename the second,
remove the first. -/
def opsW : List SessionOp :=
  [.create chatA, .create chatB, .rename "b" chatBRenamed, .remove "a"]

/-- An upload-panel state with one valid URL already in the batch. -/
def panelW : UploadPanelState :=
  { files := [], urls := ["https://example.com"], currentUrl := "", toasts := [] }

/-- Claim C1 (counterexample): with a session active, the responding flag
`isLoading` already true and whitespace-only text, `sendMessage` is NOT
rejected by the Store: the provisional message is appended to the active
session (a side effect) and the request reaches the network layer — the
failure toast of the response handler is emitted, not a precondition error. -/
theorem sendMessage_no_store_guard_counterexample :
    (sendMessage true true " " 5 .notOk c1State).currentChat
        = some (appendProvisional chatA " " 5)
    ∧ (sendMessage true true " " 5 .notOk c1State).currentChat ≠ c1State.currentChat
    ∧ (sendMessage true true " " 5 .notOk c1State).toasts
        = ["Failed to send message. Please try again."] := by decide

/-- Claim C4 (counterexample): `setCurrentChat` is the raw state setter, so
invoking it with a session that is not in the mapping leaves the active
reference pointing at an identifier that is not a key of the mapping. -/
theorem setCurrentChat_breaks_active_invariant :
    activeInMapping initialChatState = true
    ∧ activeInMapping (setCurrentChat chatA initialChatState) = false := by decide

/-- Claim C5 (counterexample): logout during an in-flight `sendMessage` does
clear the mapping and the active reference, but when the stale success
response then arrives, its handler overwrites the active reference with the
stale session snapshot (the mapping itself stays empty). -/
theorem stale_response_after_logout_counterexample :
    (logoutEffect (sendMessageInFlight chatA "hi" 3 baseState)).currentChat = none
    ∧ (logoutEffect (sendMessageInFlight chatA "hi" 3 baseState)).chats = []
    ∧ (sendMessageFinish (.ok staleChat)
        (logoutEffect (sendMessageInFlight chatA "hi" 3 baseState))).currentChat
          = some staleChat
    ∧ (sendMessageFinish (.ok staleChat)
        (logoutEffect (sendMessageInFlight chatA "hi" 3 baseState))).chats = [] := by decide

/-- Claim C9 (counterexample): the busy flags are not one per operation kind.
A successful `uploadDocuments` run factors through `startProcessing` — the
very transition `addWebsites` uses as its busy flag — so document ingestion
sets (and finally clears) `processingFiles`, the flag of website ingestion,
which was false before the call. -/
theorem shared_processing_flag_counterexample :
    baseState.processingFiles = false
    ∧ uploadDocuments true true ["f.pdf"] (.ok ()) .notOk baseState
        = clearIngestFlags { startProcessing (uploadDocumentsBusy baseState) with
            toasts := ["1 document(s) processed and ready for querying"] }
    ∧ (startProcessing (uploadDocumentsBusy baseState)).processingFiles = true
    ∧ addWebsites true true ["https://x.org"] .notOk .notOk baseState
        = { startProcessing baseState with
            toasts := ["Failed to process websites. Please try again."]
            processingFiles := false }
    ∧ (startProcessing baseState).processingFiles = true := by decide

/-- Claim C6: when the rename request fails — non-success response or network
error — the mapping and the active reference are unchanged (so the displayed
title remains the pre-rename value) and an error toast is reported. -/
theorem renameChat_failure_frame (chatId newTitle : String) (s : ChatState) :
    (renameChat true chatId newTitle .notOk s).chats = s.chats
    ∧ (renameChat true chatId newTitle .notOk s).currentChat = s.currentChat
    ∧ (renameChat true chatId newTitle .notOk s).toasts
        = s.toasts ++ ["Failed to rename chat"]
    ∧ (renameChat true chatId newTitle .networkError s).chats = s.chats
    ∧ (renameChat true chatId newTitle .networkError s).currentChat = s.currentChat
    ∧ (renameChat true chatId newTitle .networkError s).toasts
        = s.toasts ++ ["Failed to rename chat"] :=
  ⟨rfl, rfl, rfl, rfl, rfl, rfl⟩

/-- Claim C9 (amended): the Store has three busy flags — `isLoading`
(responding), `uploadingFiles` and `processingFiles` — but `processingFiles`
is shared by both ingestion kinds. The frame facts that do hold: website
ingestion never touches `uploadingFiles` or `isLoading`, document ingestion
never touches `isLoading`, and `sendMessage` never touches either ingestion
flag. -/
theorem busy_flag_frame_amended (user tokenPresent : Bool) (urls files : List String)
    (content : String) (now : Nat) (respC chatResp : FetchResult Chat)
    (respU : FetchResult Unit) (s : ChatState) :
    (addWebsites user tokenPresent urls respU chatResp s).uploadingFiles = s.uploadingFiles
    ∧ (addWebsites user tokenPresent urls respU chatResp s).isLoading = s.isLoading
    ∧ (uploadDocuments user tokenPresent files respU chatResp s).isLoading = s.isLoading
    ∧ (sendMessage user tokenPresent content now respC s).uploadingFiles = s.uploadingFiles
    ∧ (sendMessage user tokenPresent content now respC s).processingFiles = s.processingFiles := by
  cases hc : s.currentChat <;> cases user <;> cases tokenPresent <;>
    cases respU <;> cases chatResp <;> cases respC <;>
      simp [addWebsites, uploadDocuments, sendMessage, sendMessageFinish,
        sendMessageInFlight, startProcessing, uploadDocumentsBusy, clearIngestFlags,
        refetchReconcile, reconcile, hc]

/-- Claim C3: every operation settles and leaves its busy flags false: after
`sendMessage` (any outcome) `isLoading` is false, after `uploadDocuments`
(any outcome) both `uploadingFiles` and `processingFiles` are false, and
after `addWebsites` (any outcome) `processingFiles` is false — provided the
flags were false when the call began. -/
theorem busy_flags_cleared (user tokenPresent : Bool) (content : String) (now : Nat)
    (resp chatResp : FetchResult Chat) (files urls : List String)
    (uploadResp : FetchResult Unit) (s : ChatState)
    (h1 : s.isLoading = false) (h2 : s.uploadingFiles = false)
    (h3 : s.processingFiles = false) :
    (sendMessage user tokenPresent content now resp s).isLoading = false
    ∧ (uploadDocuments user tokenPresent files uploadResp chatResp s).uploadingFiles = false
    ∧ (uploadDocuments user tokenPresent files uploadResp chatResp s).processingFiles = false
    ∧ (addWebsites user tokenPresent urls uploadResp chatResp s).processingFiles = false := by
  cases hc : s.currentChat <;> cases user <;> cases tokenPresent <;>
    cases uploadResp <;> cases chatResp <;> cases resp <;>
      simp [addWebsites, uploadDocuments, sendMessage, sendMessageFinish,
        sendMessageInFlight, startProcessing, uploadDocumentsBusy, clearIngestFlags,
        refetchReconcile, reconcile, hc, h1, h2, h3]

/-- Witness for `busy_flags_cleared` at a concrete state and outcomes. -/
theorem busy_flags_cleared_witness :
    (sendMessage true true "hi" 3 .notOk baseState).isLoading = false
    ∧ (uploadDocuments true true ["f"] (.ok ()) .notOk baseState).uploadingFiles = false
    ∧ (uploadDocuments true true ["f"] (.ok ()) .notOk baseState).processingFiles = false
    ∧ (addWebsites true true ["u"] (.ok ()) .notOk baseState).processingFiles = false :=
  busy_flags_cleared true true "hi" 3 .notOk .notOk ["f"] ["u"] (.ok ()) baseState
    rfl rfl rfl

/-- Claim C1 (amended): the Store rejects `sendMessage` before any network
request and without touching the mapping, the active session or the flags
exactly when the identity is absent or no session is active (with a
user-facing toast) or the stored token is absent (silently); empty or
whitespace text and an already-true responding flag are NOT checked by the
Store — such calls proceed to the optimistic append and the network round
trip (those two guards live in the chat input component, not in the Store). -/
theorem sendMessage_rejection_amended (user tokenPresent : Bool) (content : String)
    (now : Nat) (resp : FetchResult Chat) (s : ChatState) :
    ((user = false ∨ s.currentChat = none) →
        sendMessage user tokenPresent content now resp s
          = { s with toasts := s.toasts ++ ["Please create a new chat first"] })
    ∧ (∀ cc, s.currentChat = some cc → user = true → tokenPresent = false →
        sendMessage user tokenPresent content now resp s = s)
    ∧ (∀ cc, s.currentChat = some cc → user = true → tokenPresent = true →
        sendMessage user tokenPresent content now resp s
          = sendMessageFinish resp (sendMessageInFlight cc content now s)) := by
  refine ⟨?_, ?_, ?_⟩
  · rintro (h | h)
    · subst h; cases hc : s.currentChat <;> simp [sendMessage, hc]
    · simp [sendMessage, h]
  · rintro cc hcc rfl rfl; simp [sendMessage, hcc]
  · rintro cc hcc rfl rfl; simp [sendMessage, hcc]

/-- Witness for `sendMessage_rejection_amended`: with a user, a token and an
active session, the call proceeds to the in-flight state and the response
handler even though the flag situation is otherwise arbitrary. -/
theorem sendMessage_rejection_amended_witness :
    sendMessage true true "hi" 3 .notOk baseState
      = sendMessageFinish .notOk (sendMessageInFlight chatA "hi" 3 baseState) :=
  (sendMessage_rejection_amended true true "hi" 3 .notOk baseState).2.2 chatA rfl rfl rfl

/-- Claim C2: on a successful `sendMessage`, the active session becomes the
server's snapshot, every mapping entry carrying the snapshot's identifier is
replaced by the snapshot in full (so its message sequence equals exactly the
server's), other entries are untouched, and — since the snapshot is the
entire resulting sequence — the provisional locally generated identifier does
not appear in it as long as it is not among the server's message ids. -/
theorem sendMessage_success_reconciliation (content : String) (now : Nat)
    (updated : Chat) (s : ChatState) (cc : Chat) (hcc : s.currentChat = some cc) :
    (sendMessage true true content now (.ok updated) s).currentChat = some updated
    ∧ (∀ c ∈ (sendMessage true true content now (.ok updated) s).chats,
        c.id = updated.id → c = updated)
    ∧ (∀ c ∈ (sendMessage true true content now (.ok updated) s).chats,
        c.id ≠ updated.id → c ∈ s.chats)
    ∧ ((mkProvisional content now).id ∉ updated.messages.map Message.id →
        ∀ c ∈ (sendMessage true true content now (.ok updated) s).chats,
          c.id = updated.id →
            (mkProvisional content now).id ∉ c.messages.map Message.id) := by
  have hchats : (sendMessage true true content now (.ok updated) s).chats
      = s.chats.map fun c => if c.id = updated.id then updated else c := by
    simp [sendMessage, hcc, sendMessageFinish, reconcile, sendMessageInFlight]
  have hcur : (sendMessage true true content now (.ok updated) s).currentChat
      = some updated := by
    simp [sendMessage, hcc, sendMessageFinish, reconcile, sendMessageInFlight]
  have hrepl : ∀ c ∈ (sendMessage true true content now (.ok updated) s).chats,
      c.id = updated.id → c = updated := by
    intro c hc hid
    rw [hchats] at hc
    rcases List.mem_map.1 hc with ⟨c0, _hc0, rfl⟩
    by_cases h0 : c0.id = updated.id
    · rw [if_pos h0]
    · rw [if_neg h0] at hid ⊢
      exact absurd hid h0
  refine ⟨hcur, hrepl, ?_, ?_⟩
  · intro c hc hid
    rw [hchats] at hc
    rcases List.mem_map.1 hc with ⟨c0, hc0, rfl⟩
    by_cases h0 : c0.id = updated.id
    · rw [if_pos h0] at hid
      exact absurd rfl hid
    · rw [if_neg h0]
      exact hc0
  · intro hnot c hc hid
    rw [hrepl c hc hid]
    exact hnot

/-- Witness for `sendMessage_success_reconciliation` at a concrete state. -/
theorem sendMessage_success_reconciliation_witness :
    (sendMessage true true "hi" 3 (.ok staleChat) baseState).currentChat
      = some staleChat :=
  (sendMessage_success_reconciliation "hi" 3 staleChat baseState chatA rfl).1

/-- Claim C10: the optimistic provisional message is appended only to the
active-session reference — the in-flight state and both failure outcomes
leave the mapping exactly as it was, while the active reference carries the
provisional message (whose identifier is among its message ids). -/
theorem provisional_only_active (content : String) (now : Nat) (s : ChatState)
    (cc : Chat) (hcc : s.currentChat = some cc) :
    (sendMessageInFlight cc content now s).chats = s.chats
    ∧ (sendMessage true true content now .notOk s).chats = s.chats
    ∧ (sendMessage true true content now .networkError s).chats = s.chats
    ∧ (sendMessage true true content now .notOk s).currentChat
        = some (appendProvisional cc content now)
    ∧ (mkProvisional content now).id
        ∈ (appendProvisional cc content now).messages.map Message.id := by
  refine ⟨rfl, ?_, ?_, ?_, ?_⟩
  · simp [sendMessage, hcc, sendMessageFinish, sendMessageInFlight]
  · simp [sendMessage, hcc, sendMessageFinish, sendMessageInFlight]
  · simp [sendMessage, hcc, sendMessageFinish, sendMessageInFlight]
  · simp [appendProvisional]

/-- Witness for `provisional_only_active` at a concrete state. -/
theorem provisional_only_active_witness :
    (sendMessage true true "hi" 3 .notOk baseState).currentChat
      = some (appendProvisional chatA "hi" 3) :=
  (provisional_only_active "hi" 3 baseState chatA rfl).2.2.2.1

/-- Claim C5 (amended): logout clears the mapping and the active reference
unconditionally, even with requests in flight; a stale success response
arriving after logout cannot repopulate the mapping — its reconciliation maps
over the now-empty list — but it does overwrite the active reference with the
stale session snapshot. -/
theorem logout_clears_amended (s sAfter : ChatState) (c : Chat)
    (h : sAfter.chats = []) :
    (logoutEffect s).chats = []
    ∧ (logoutEffect s).currentChat = none
    ∧ (sendMessageFinish (.ok c) sAfter).chats = []
    ∧ (sendMessageFinish (.ok c) sAfter).currentChat = some c := by
  refine ⟨rfl, rfl, ?_, rfl⟩
  simp [sendMessageFinish, reconcile, h]

/-- Witness for `logout_clears_amended` at a concrete run. -/
theorem logout_clears_amended_witness :
    (logoutEffect baseState).chats = []
    ∧ (logoutEffect baseState).currentChat = none
    ∧ (sendMessageFinish (.ok staleChat) (logoutEffect baseState)).chats = []
    ∧ (sendMessageFinish (.ok staleChat) (logoutEffect baseState)).currentChat
        = some staleChat :=
  logout_clears_amended baseState (logoutEffect baseState) staleChat rfl

/-- Claim C7: a URL that the URL constructor rejects is never added to the
batch — `handleAddUrl` leaves the batch unchanged and (for non-blank input)
reports an error; adding and removing entries keeps every batch entry
well-formed; and the websites request carries exactly the batch, so no
request ever carries a malformed entry. -/
theorem url_validation (u : String) (index : Nat) (chatActive : Bool)
    (p : UploadPanelState) (hu : urlParses u = false) :
    (handleAddUrl { p with currentUrl := u }).urls = p.urls
    ∧ (trimWs u ≠ "" →
        (handleAddUrl { p with currentUrl := u }).toasts
          = p.toasts ++ ["Please enter a valid URL"])
    ∧ (p.urls.all urlParses = true → (handleAddUrl p).urls.all urlParses = true)
    ∧ (p.urls.all urlParses = true →
        (handleRemoveUrl index p).urls.all urlParses = true)
    ∧ (p.urls.all urlParses = true →
        ∀ batch, websitesRequestOf chatActive p = some batch → u ∉ batch) := by
  refine ⟨?_, ?_, ?_, ?_, ?_⟩
  · by_cases ht : trimWs u = "" <;> simp [handleAddUrl, ht, hu]
  · intro ht
    simp [handleAddUrl, ht, hu]
  · intro hall
    by_cases ht : trimWs p.currentUrl = ""
    · simpa [handleAddUrl, ht] using hall
    · by_cases hv : urlParses p.currentUrl
      · by_cases hl : p.urls.length ≥ 10
        · simpa [handleAddUrl, ht, hv, hl] using hall
        · simp [handleAddUrl, ht, hv, hl, List.all_append, hall]
      · simpa [handleAddUrl, ht, hv] using hall
  · intro hall
    rw [List.all_eq_true] at hall ⊢
    intro x hx
    rcases List.mem_map.1 hx with ⟨z, hz, rfl⟩
    have hz' : z ∈ p.urls.enum := List.mem_of_mem_filter hz
    have hz'' : z.2 ∈ p.urls.enum.map Prod.snd := List.mem_map_of_mem Prod.snd hz'
    rw [List.enum_map_snd] at hz''
    exact hall _ hz''
  · intro hall batch hb hmem
    have hbatch : batch = p.urls := by
      unfold websitesRequestOf at hb
      split at hb
      · exact (Option.some.inj hb).symm
      · exact absurd hb (by simp)
    rw [hbatch] at hmem
    have := List.all_eq_true.1 hall u hmem
    rw [hu] at this
    exact absurd this (by simp)

/-- Witness for `url_validation`: the string from the spec's scenario,
`not-a-url`, fails local validation and the batch is unchanged. -/
theorem url_validation_witness :
    urlParses "not-a-url" = false
    ∧ (handleAddUrl { panelW with currentUrl := "not-a-url" }).urls = panelW.urls :=
  ⟨by decide, (url_validation "not-a-url" 0 true panelW (by decide)).1⟩

theorem activeInMapping_eq_true (s : ChatState) :
    activeInMapping s = true
      ↔ ∀ cc, s.currentChat = some cc → cc.id ∈ s.chats.map Chat.id := by
  cases hc : s.currentChat <;> simp [activeInMapping, hc]

theorem map_replace_id (l : List Chat) (u : Chat) (i : String) (h : u.id = i) :
    (l.map fun c => if c.id = i then u else c).map Chat.id = l.map Chat.id := by
  induction l with
  | nil => rfl
  | cons c rest ih => by_cases hc : c.id = i <;> simp [hc, h, ih]

theorem mem_keys_filter (chats : List Chat) (chatId x : String)
    (hx : x ∈ chats.map Chat.id) (hne : x ≠ chatId) :
    x ∈ (chats.filter fun c => c.id != chatId).map Chat.id := by
  rcases List.mem_map.1 hx with ⟨c, hc, rfl⟩
  exact List.mem_map_of_mem Chat.id
    (List.mem_filter.2 ⟨hc, by simpa [bne_iff_ne] using hne⟩)

theorem mem_keys_replace_hit (chats : List Chat) (u : Chat) (chatId : String)
    (h : chatId ∈ chats.map Chat.id) :
    u.id ∈ (chats.map fun c => if c.id = chatId then u else c).map Chat.id := by
  rcases List.mem_map.1 h with ⟨c, hc, hcid⟩
  have hu : u ∈ chats.map fun c => if c.id = chatId then u else c :=
    List.mem_map.2 ⟨c, hc, if_pos hcid⟩
  exact List.mem_map_of_mem Chat.id hu

theorem mem_keys_replace_miss (chats : List Chat) (u : Chat) (chatId x : String)
    (hx : x ∈ chats.map Chat.id) (hne : x ≠ chatId) :
    x ∈ (chats.map fun c => if c.id = chatId then u else c).map Chat.id := by
  rcases List.mem_map.1 hx with ⟨c, hc, rfl⟩
  have hcmem : c ∈ chats.map fun c1 => if c1.id = chatId then u else c1 :=
    List.mem_map.2 ⟨c, hc, if_neg fun h => hne h⟩
  exact List.mem_map_of_mem Chat.id hcmem

theorem aim_createChat (user tokenPresent : Bool) (resp : FetchResult Chat)
    (s : ChatState) (hs : activeInMapping s = true) :
    activeInMapping (createChat user tokenPresent resp s) = true := by
  cases user with
  | false => exact hs
  | true =>
    cases tokenPresent with
    | false => exact hs
    | true =>
      cases resp with
      | ok newChat => simp [createChat, activeInMapping]
      | notOk => exact hs
      | networkError => exact hs

theorem aim_deleteChat (tokenPresent : Bool) (chatId : String)
    (respU : FetchResult Unit) (s : ChatState) (hs : activeInMapping s = true) :
    activeInMapping (deleteChat tokenPresent chatId respU s) = true := by
  obtain ⟨chats, current, il, uf, pf, ts⟩ := s
  cases tokenPresent with
  | false => exact hs
  | true =>
    cases respU with
    | notOk => exact hs
    | networkError => exact hs
    | ok v =>
      cases current with
      | none => rfl
      | some c0 =>
        simp only [activeInMapping, decide_eq_true_eq] at hs
        by_cases hid : c0.id = chatId
        · have hred : deleteChat true chatId (.ok v) ⟨chats, some c0, il, uf, pf, ts⟩
              = ⟨chats.filter fun c => c.id != chatId,
                 (chats.filter fun c => c.id != chatId).head?, il, uf, pf, ts⟩ := by
            simp [deleteChat, hid]
          rw [hred]
          cases hh : (chats.filter fun c => c.id != chatId).head? with
          | none => simp [activeInMapping, hh]
          | some c1 =>
            have hm : c1 ∈ chats.filter fun c => c.id != chatId :=
              List.mem_of_mem_head? (by simp [hh])
            simp only [activeInMapping, hh, decide_eq_true_eq]
            exact List.mem_map_of_mem Chat.id hm
        · have hred : deleteChat true chatId (.ok v) ⟨chats, some c0, il, uf, pf, ts⟩
              = ⟨chats.filter fun c => c.id != chatId, some c0, il, uf, pf, ts⟩ := by
            simp [deleteChat, hid]
          rw [hred]
          simp only [activeInMapping, decide_eq_true_eq]
          exact mem_keys_filter chats chatId c0.id hs hid

theorem aim_renameChat (tokenPresent : Bool) (chatId newTitle : String)
    (resp : FetchResult Chat) (s : ChatState) (hs : activeInMapping s = true) :
    activeInMapping (renameChat tokenPresent chatId newTitle resp s) = true := by
  obtain ⟨chats, current, il, uf, pf, ts⟩ := s
  cases tokenPresent with
  | false => exact hs
  | true =>
    cases resp with
    | notOk => exact hs
    | networkError => exact hs
    | ok u =>
      cases current with
      | none => rfl
      | some c0 =>
        simp only [activeInMapping, decide_eq_true_eq] at hs
        by_cases hid : c0.id = chatId
        · have hred : renameChat true chatId newTitle (.ok u) ⟨chats, some c0, il, uf, pf, ts⟩
              = ⟨chats.map fun c => if c.id = chatId then u else c,
                 some u, il, uf, pf, ts⟩ := by
            simp [renameChat, hid]
          rw [hred]
          simp only [activeInMapping, decide_eq_true_eq]
          exact mem_keys_replace_hit chats u chatId (hid ▸ hs)
        · have hred : renameChat true chatId newTitle (.ok u) ⟨chats, some c0, il, uf, pf, ts⟩
              = ⟨chats.map fun c => if c.id = chatId then u else c,
                 some c0, il, uf, pf, ts⟩ := by
            simp [renameChat, hid]
          rw [hred]
          simp only [activeInMapping, decide_eq_true_eq]
          exact mem_keys_replace_miss chats u chatId c0.id hs hid

theorem aim_reconcile (u : Chat) (s : ChatState)
    (h : u.id ∈ s.chats.map Chat.id) : activeInMapping (reconcile u s) = true := by
  obtain ⟨chats, current, il, uf, pf, ts⟩ := s
  simp only [reconcile, activeInMapping, decide_eq_true_eq]
  rw [map_replace_id chats u u.id rfl]
  exact h

theorem aim_sendMessage (user tokenPresent : Bool) (content : String) (now : Nat)
    (respC : FetchResult Chat) (s : ChatState) (hs : activeInMapping s = true)
    (hok : ∀ u, respC = FetchResult.ok u → u.id ∈ s.chats.map Chat.id) :
    activeInMapping (sendMessage user tokenPresent content now respC s) = true := by
  obtain ⟨chats, current, il, uf, pf, ts⟩ := s
  cases current with
  | none => rfl
  | some cc =>
    cases user with
    | false => exact hs
    | true =>
      cases tokenPresent with
      | false => exact hs
      | true =>
        cases respC with
        | ok u =>
          have hu : u.id ∈ chats.map Chat.id := hok u rfl
          have hred : sendMessage true true content now (.ok u)
                ⟨chats, some cc, il, uf, pf, ts⟩
              = ⟨chats.map fun c => if c.id = u.id then u else c,
                 some u, false, uf, pf, ts⟩ := rfl
          rw [hred]
          simp only [activeInMapping, decide_eq_true_eq]
          rw [map_replace_id chats u u.id rfl]
          exact hu
        | notOk => exact hs
        | networkError => exact hs

theorem aim_uploadDocuments (user tokenPresent : Bool) (files : List String)
    (uploadResp : FetchResult Unit) (chatResp : FetchResult Chat) (s : ChatState)
    (hs : activeInMapping s = true)
    (hok : ∀ u, chatResp = FetchResult.ok u → u.id ∈ s.chats.map Chat.id) :
    activeInMapping (uploadDocuments user tokenPresent files uploadResp chatResp s)
      = true := by
  obtain ⟨chats, current, il, uf, pf, ts⟩ := s
  cases current with
  | none => rfl
  | some cc =>
    cases user with
    | false => exact hs
    | true =>
      cases tokenPresent with
      | false => exact hs
      | true =>
        cases uploadResp with
        | notOk => exact hs
        | networkError => exact hs
        | ok v =>
          cases chatResp with
          | ok u =>
            have hu : u.id ∈ chats.map Chat.id := hok u rfl
            have hred : uploadDocuments true true files (.ok v) (.ok u)
                  ⟨chats, some cc, il, uf, pf, ts⟩
                = ⟨chats.map fun c => if c.id = u.id then u else c, some u,
                   il, false, false,
                   ts ++ [toString files.length
                     ++ " document(s) processed and ready for querying"]⟩ := rfl
            rw [hred]
            simp only [activeInMapping, decide_eq_true_eq]
            rw [map_replace_id chats u u.id rfl]
            exact hu
          | notOk => exact hs
          | networkError => exact hs

theorem aim_addWebsites (user tokenPresent : Bool) (urls : List String)
    (websitesResp : FetchResult Unit) (chatResp : FetchResult Chat) (s : ChatState)
    (hs : activeInMapping s = true)
    (hok : ∀ u, chatResp = FetchResult.ok u → u.id ∈ s.chats.map Chat.id) :
    activeInMapping (addWebsites user tokenPresent urls websitesResp chatResp s)
      = true := by
  obtain ⟨chats, current, il, uf, pf, ts⟩ := s
  cases current with
  | none => rfl
  | some cc =>
    cases user with
    | false => exact hs
    | true =>
      cases tokenPresent with
      | false => exact hs
      | true =>
        cases websitesResp with
        | notOk => exact hs
        | networkError => exact hs
        | ok v =>
          cases chatResp with
          | ok u =>
            have hu : u.id ∈ chats.map Chat.id := hok u rfl
            have hred : addWebsites true true urls (.ok v) (.ok u)
                  ⟨chats, some cc, il, uf, pf, ts⟩
                = ⟨chats.map fun c => if c.id = u.id then u else c, some u,
                   il, uf, false,
                   ts ++ [toString urls.length
                     ++ " website(s) processed and ready for querying"]⟩ := rfl
            rw [hred]
            simp only [activeInMapping, decide_eq_true_eq]
            rw [map_replace_id chats u u.id rfl]
            exact hu
          | notOk => exact hs
          | networkError => exact hs

/-- Claim C4 (amended): the invariant "the active reference is unset or its
identifier is a key of the mapping" is preserved by `createChat`,
`deleteChat` and `renameChat` under every outcome, and by `sendMessage`,
`uploadDocuments` and `addWebsites` whenever any snapshot the server returns
carries an identifier already in the mapping; a successful `deleteChat` of
the active session makes the first remaining entry (or none) active; but
`setCurrentChat` is the raw setter, so it preserves the invariant only when
the given session's identifier is already a key. -/
theorem active_in_mapping_amended (user tokenPresent : Bool)
    (content chatId newTitle : String) (now : Nat)
    (respC chatResp : FetchResult Chat) (respU uploadResp : FetchResult Unit)
    (files urls : List String) (s : ChatState)
    (hs : activeInMapping s = true) :
    activeInMapping (createChat user tokenPresent respC s) = true
    ∧ activeInMapping (deleteChat tokenPresent chatId respU s) = true
    ∧ activeInMapping (renameChat tokenPresent chatId newTitle respC s) = true
    ∧ ((∀ u, respC = FetchResult.ok u → u.id ∈ keys s) →
        activeInMapping (sendMessage user tokenPresent content now respC s) = true)
    ∧ ((∀ u, chatResp = FetchResult.ok u → u.id ∈ keys s) →
        activeInMapping (uploadDocuments user tokenPresent files uploadResp chatResp s)
          = true)
    ∧ ((∀ u, chatResp = FetchResult.ok u → u.id ∈ keys s) →
        activeInMapping (addWebsites user tokenPresent urls uploadResp chatResp s)
          = true)
    ∧ (∀ c, c.id ∈ keys s → activeInMapping (setCurrentChat c s) = true)
    ∧ (∀ cc, s.currentChat = some cc → cc.id = chatId →
        (deleteChat true chatId (.ok ()) s).currentChat
          = (s.chats.filter fun c => c.id != chatId).head?) := by
  refine ⟨aim_createChat user tokenPresent respC s hs,
    aim_deleteChat tokenPresent chatId respU s hs,
    aim_renameChat tokenPresent chatId newTitle respC s hs,
    fun hok => aim_sendMessage user tokenPresent content now respC s hs hok,
    fun hok => aim_uploadDocuments user tokenPresent files uploadResp chatResp s hs hok,
    fun hok => aim_addWebsites user tokenPresent urls uploadResp chatResp s hs hok,
    ?_, ?_⟩
  · intro c hc
    obtain ⟨chats, current, il, uf, pf, ts⟩ := s
    simp only [keys] at hc
    simp only [setCurrentChat, activeInMapping, decide_eq_true_eq]
    exact hc
  · intro cc hcc hid
    obtain ⟨chats, current, il, uf, pf, ts⟩ := s
    simp only at hcc
    subst hcc
    simp [deleteChat, hid]

/-- Witness for `active_in_mapping_amended` at a concrete state: deleting the
active session of `baseState` keeps the invariant. -/
theorem active_in_mapping_amended_witness :
    activeInMapping (deleteChat true "a" (.ok ()) baseState) = true :=
  (active_in_mapping_amended true true "hi" "a" "t" 3 .notOk .notOk (.ok ()) (.ok ())
    ["f"] ["u"] baseState (by decide)).2.1

theorem wf_removed_not_created : ∀ (ops : List SessionOp) (rem : List String),
    wfOps ops rem = true → ∀ y ∈ rem, y ∉ createdIds ops := by
  intro ops
  induction ops with
  | nil =>
    intro rem _ y _ hmem
    simp [createdIds] at hmem
  | cons op rest ih =>
    intro rem hwf y hy hmem
    cases op with
    | create c =>
      simp only [wfOps, Bool.and_eq_true] at hwf
      obtain ⟨h1, h2⟩ := hwf
      simp only [createdIds, List.mem_cons] at hmem
      rcases hmem with hmem | hmem
      · subst hmem
        have hc : rem.contains c.id = true := List.elem_iff.2 hy
        rw [hc] at h1
        simp at h1
      · exact ih rem h2 y hy hmem
    | rename i u =>
      simp only [wfOps, Bool.and_eq_true] at hwf
      simp only [createdIds] at hmem
      exact ih rem hwf.2 y hy hmem
    | remove i =>
      simp only [wfOps] at hwf
      simp only [createdIds] at hmem
      exact ih (i :: rem) hwf y (List.mem_cons_of_mem i hy) hmem

theorem keys_runOps : ∀ (ops : List SessionOp) (rem : List String) (s : ChatState),
    wfOps ops rem = true →
    ∀ x, x ∈ keys (runOps s ops)
      ↔ ((x ∈ keys s ∨ x ∈ createdIds ops) ∧ x ∉ removedIds ops) := by
  intro ops
  induction ops with
  | nil =>
    intro rem s _ x
    simp [runOps, createdIds, removedIds]
  | cons op rest ih =>
    intro rem s hwf x
    cases op with
    | create c =>
      simp only [wfOps, Bool.and_eq_true] at hwf
      have hrun : runOps s (SessionOp.create c :: rest)
          = runOps (applyOp s (SessionOp.create c)) rest := rfl
      rw [hrun, ih rem _ hwf.2 x]
      have hk : keys (applyOp s (SessionOp.create c)) = c.id :: keys s := rfl
      rw [hk]
      simp only [createdIds, removedIds, List.mem_cons]
      tauto
    | rename i u =>
      simp only [wfOps, Bool.and_eq_true] at hwf
      obtain ⟨h1, h2⟩ := hwf
      have hid : u.id = i := by simpa using h1
      have hrun : runOps s (SessionOp.rename i u :: rest)
          = runOps (applyOp s (SessionOp.rename i u)) rest := rfl
      rw [hrun, ih rem _ h2 x]
      have hk : keys (applyOp s (SessionOp.rename i u)) = keys s :=
        map_replace_id s.chats u i hid
      rw [hk]
      simp only [createdIds, removedIds]
    | remove i =>
      simp only [wfOps] at hwf
      have hnc : i ∉ createdIds rest :=
        wf_removed_not_created rest (i :: rem) hwf i (List.mem_cons_self i rem)
      have hrun : runOps s (SessionOp.remove i :: rest)
          = runOps (applyOp s (SessionOp.remove i)) rest := rfl
      rw [hrun, ih (i :: rem) _ hwf x]
      have hk : ∀ y, (y ∈ keys (applyOp s (SessionOp.remove i)))
          ↔ (y ∈ keys s ∧ y ≠ i) := by
        intro y
        constructor
        · intro hy
          rcases List.mem_map.1 hy with ⟨c, hcf, rfl⟩
          have hcm := List.mem_filter.1 hcf
          exact ⟨List.mem_map_of_mem Chat.id hcm.1, by simpa [bne_iff_ne] using hcm.2⟩
        · rintro ⟨hy, hne⟩
          exact mem_keys_filter s.chats i y hy hne
      rw [hk x]
      simp only [createdIds, removedIds, List.mem_cons]
      by_cases hxi : x = i
      · subst hxi
        simp [hnc]
      · simp only [hxi, false_or]
        tauto

/-- Claim C8: for any interleaved sequence of successful create, rename and
remove operations starting from the empty mapping — with server-assigned
identifiers fresh (never reusing a removed identifier) and rename responses
echoing the renamed session's identifier — the mapping's key set afterwards
is exactly the set of created identifiers minus the removed ones. -/
theorem key_set_algebra (ops : List SessionOp) (h : wfOps ops [] = true) :
    ∀ x, x ∈ keys (runOps initialChatState ops)
      ↔ (x ∈ createdIds ops ∧ x ∉ removedIds ops) := by
  intro x
  have h0 := keys_runOps ops [] initialChatState h x
  simpa [initialChatState, keys] using h0

/-- Witness for `key_set_algebra` on the concrete sequence `opsW`
(create a, create b, rename b, remove a), evaluated at identifier `b`. -/
theorem key_set_algebra_witness :
    wfOps opsW [] = true
    ∧ ("b" ∈ keys (runOps initialChatState opsW)
        ↔ ("b" ∈ createdIds opsW ∧ "b" ∉ removedIds opsW)) :=
  ⟨by decide, key_set_algebra opsW (by decide) "b"⟩

end ShikshaSetu
